import Mathlib

/-!
Verification of the nuclear-data orchestration scripts (generate_endf.py,
generate_jendl.py, and the depletion chain scripts).  The definitions below
shallowly embed the pure decision logic of those scripts: path handling as in
Python's pathlib, the per-release URL/checksum tables, the archive-extraction
flattening, the errata-handling file moves, the chain scripts' missing-file
checks, the process-pool fan-out traces, and the registration/export phase.
-/

/-! ## Path model

`PurePosixPath` is modelled by its list of parts.  `pathlib` parses a string
by splitting on `/` and discarding empty segments and `.` segments; `name` is
the last part (so a trailing slash is dropped: `Path('d/').name = 'd'`).
-/

/-- Split a character list on `/` separators. -/
def splitSlash : List Char → List (List Char)
  | [] => [[]]
  | c :: cs =>
    match splitSlash cs with
    | [] => [[]]
    | seg :: rest => if c = '/' then [] :: seg :: rest else (c :: seg) :: rest

/-- The parts of a path string, as produced by `pathlib` for a relative
posix path: split on `/`, drop empty and `.` segments. -/
def pathParts (s : String) : List String :=
  ((splitSlash s.data).filter (fun seg => !(seg = [] ∨ seg = ['.'] : Bool))).map
    (fun seg => String.mk seg)

/-- `Path(s).name`: the final path component, `""` for an empty path. -/
def pathName (s : String) : String :=
  (pathParts s).getLastD ""

/-- A filesystem path, as its `pathlib` parts.  `p / s` is `p ++ pathParts s`
and `p.name` is the last part. -/
abbrev PyPath := List String

/-- `Path.name` on a parts-represented path. -/
def pname (p : PyPath) : String :=
  p.getLastD ""

/-- `str.endswith(t)`. -/
def strEndsWith (s t : String) : Bool :=
  t.data.isSuffixOf s.data

/-- `str.startswith(t)`. -/
def strStartsWith (s t : String) : Bool :=
  t.data.isPrefixOf s.data

/-- `Path(name).stem` for a bare file name: the name with its last suffix
removed; a dot at position 0 or at the very end does not start a suffix. -/
def stemOfName (s : String) : String :=
  match (s.data.reverse.findIdx? (fun c => c = '.')) with
  | none => s
  | some k =>
    let i := s.data.length - 1 - k
    if 0 < i ∧ i < s.data.length - 1 then String.mk (s.data.take i) else s

/-! ## Archive extraction (generate_endf.py, lines 381-420)

For a `.zip` archive the script iterates over `zipf.namelist()`, computes
`filename = Path(member).name`, skips the member when `filename` is falsy and
otherwise writes the member's bytes to `extraction_dir / filename`.  For a
`.tar.gz` archive it extracts each regular member (`member.isreg()`) after
renaming it to its base name.  Any other downloaded file (the errata files)
is copied to `extraction_dir / fname` directly.
-/

/-- Target path for one zip member, exactly as computed by the script:
`Path(member).name`, written when non-empty.  (A zip directory member is a
name ending in `/`.) -/
def zipMemberTarget (extraction_dir : PyPath) (member : String) : Option PyPath :=
  let filename := pathName member
  if filename = "" then none
  else some (extraction_dir ++ [filename])

/-- A tar archive member: its stored name and whether it is a regular file. -/
structure TarMember where
  name : String
  isreg : Bool
deriving DecidableEq, Repr

/-- Target path for one tar member: regular members are extracted under
their base name, any other member kind is not extracted. -/
def tarMemberTarget (extraction_dir : PyPath) (m : TarMember) : Option PyPath :=
  if m.isreg then some (extraction_dir ++ [pathName m.name]) else none


/-! ## Release tables and the download phase

`release_details` of generate_endf.py (lines 91-362), restricted to the
fields the download and extraction phases read: `base_url`,
`compressed_files` and (when present) `checksums`.  generate_endf.py builds
each URL as `details['base_url'] + f` and, when the entry has a `checksums`
key, verifies the i-th compressed file against the i-th checksum
(lines 367-376).  generate_jendl.py (lines 202-210) builds each URL with
`urljoin` and passes no checksum at all.
-/

/-- The fields of one `release_details[release][particle]` entry used by the
download phase. -/
structure ReleaseParticle where
  base_url : String
  compressed_files : List String
  checksums : Option (List String)
deriving DecidableEq, Repr

def vii1_neutron : ReleaseParticle :=
  { base_url := "http://www.nndc.bnl.gov/endf-b7.1/zips/",
    compressed_files := ["ENDF-B-VII.1-neutrons.zip"],
    checksums := some ["e5d7f441fc4c92893322c24d1725e29c"] }

def vii1_thermal : ReleaseParticle :=
  { base_url := "http://www.nndc.bnl.gov/endf-b7.1/zips/",
    compressed_files := ["ENDF-B-VII.1-thermal_scatt.zip"],
    checksums := some ["fe590109dde63b2ec5dc228c7b8cab02"] }

def vii1_photon : ReleaseParticle :=
  { base_url := "http://www.nndc.bnl.gov/endf-b7.1/zips/",
    compressed_files := ["ENDF-B-VII.1-photoat.zip", "ENDF-B-VII.1-atomic_relax.zip"],
    checksums := some ["5192f94e61f0b385cf536f448ffab4a4", "fddb6035e7f2b6931e51a58fc754bd10"] }

def vii1_wmp : ReleaseParticle :=
  { base_url := "https://github.com/mit-crpg/WMP_Library/releases/download/v1.1/",
    compressed_files := ["WMP_Library_v1.1.tar.gz"],
    checksums := none }

def viii0_neutron : ReleaseParticle :=
  { base_url := "https://www.nndc.bnl.gov/endf-b8.0/",
    compressed_files := ["zips/ENDF-B-VIII.0_neutrons.zip", "erratafiles/n-005_B_010.endf"],
    checksums := some ["90c1b1a6653a148f17cbf3c5d1171859", "eaf71eb22258f759abc205a129d8715a"] }

def viii0_thermal : ReleaseParticle :=
  { base_url := "https://www.nndc.bnl.gov/endf-b8.0/zips/",
    compressed_files := ["ENDF-B-VIII.0_thermal_scatt.zip"],
    checksums := some ["ecd503d3f8214f703e95e17cc947062c"] }

def viii0_photon : ReleaseParticle :=
  { base_url := "https://www.nndc.bnl.gov/endf-b8.0/",
    compressed_files := ["zips/ENDF-B-VIII.0_photoat.zip", "erratafiles/atomic_relax.tar.gz"],
    checksums := some ["d49f5b54be278862e1ce742ccd94f5c0", "805f877c59ad22dcf57a0446d266ceea"] }

def viii1_neutron : ReleaseParticle :=
  { base_url := "https://www.nndc.bnl.gov/endf-releases/releases/B-VIII.1/neutrons/",
    compressed_files := ["neutrons-version.VIII.1.tar.gz"],
    checksums := some ["dc622c0f1c3c4477433e698266e0fc80"] }

def viii1_thermal : ReleaseParticle :=
  { base_url := "https://www.nndc.bnl.gov/endf-releases/releases/B-VIII.1/thermal_scatt/",
    compressed_files := ["thermal_scatt-version.VIII.1.tar.gz"],
    checksums := some ["f7bcae02b2da577e28a3a083e07a3a3a"] }

def viii1_photon : ReleaseParticle :=
  { base_url := "https://www.nndc.bnl.gov/endf-releases/releases/B-VIII.1/",
    compressed_files := ["photoat/photoat-version.VIII.1.tar.gz",
                         "atomic_relax/atomic_relax-version.VIII.1.tar.gz"],
    checksums := some ["6d5f4830f6290d6c618803a8391ba0cf", "70e9ca0c481236499b7a3e0a490f4ef2"] }

/-- One call to `utils.download`: the URL and the checksum passed to it, if
any.  A call with `checksum = none` performs no verification. -/
structure DownloadCall where
  url : String
  checksum : Option String
deriving DecidableEq, Repr

/-- generate_endf.py lines 367-376: one download call per compressed file; if
the entry has a `checksums` key, the call for the i-th file carries the i-th
checksum, otherwise no checksum is passed. -/
def endfDownloadCalls (d : ReleaseParticle) : List DownloadCall :=
  d.compressed_files.enum.map (fun p =>
    { url := d.base_url ++ p.2,
      checksum := match d.checksums with
        | some cs => cs.get? p.1
        | none => none })

/-- `urljoin(base, f)` in the case the scripts use it: `base` ends in `/` and
`f` is a relative reference, so the result is their concatenation. -/
def urljoinRel (base f : String) : String := base ++ f

def jendl5_base_url : String := "https://wwwndc.jaea.go.jp/ftpnd/ftp/JENDL/"

def jendl5_neutron_compressed_files : List String :=
  ["jendl5-n.tar.gz", "jendl5-n_upd1.tar.gz", "jendl5-n_upd6.tar.gz",
   "jendl5-n_upd7.tar.gz", "jendl5-n_upd10.tar.gz", "jendl5-n_upd11.tar.gz",
   "jendl5-n_upd12.tar.gz", "jendl5-n_upd14.tar.gz"]

def jendl5_thermal_compressed_files : List String :=
  ["jendl5-tsl.tar.gz", "jendl5-tsl_upd16.tar.gz"]

def jendl5_photon_compressed_files : List String :=
  ["jendl5-pa.tar.gz", "jendl5-ar.tar.gz"]

/-- generate_jendl.py lines 202-210: one download call per compressed file;
no checksum argument is ever passed. -/
def jendlDownloadCalls (base_url : String) (files : List String) : List DownloadCall :=
  files.map (fun f => { url := urljoinRel base_url f, checksum := none })

/-! ## Extraction writes and errata handling -/

/-- Provenance of one file written below the extraction directory. -/
inductive WriteSource where
  | zipEntry (archive member : String)
  | tarEntry (archive member : String)
  | plainCopy (file : String)
deriving DecidableEq, Repr

/-- generate_endf.py lines 393-420: the writes performed into the extraction
directory while handling one downloaded file `f`, in order.  `zipContents`
and `tarContents` give the member lists of the named archives; every target
is the member's base name directly in the extraction directory.  A file that
is neither `.zip` nor `.tar.gz` (an errata file) is copied under its own base
name. -/
def compressedFileWrites (zipContents : String → List String)
    (tarContents : String → List TarMember) (f : String) : List (String × WriteSource) :=
  let fname := pathName f
  if strEndsWith fname ".zip" then
    (zipContents fname).filterMap (fun member =>
      let filename := pathName member
      if filename = "" then none else some (filename, WriteSource.zipEntry fname member))
  else if strEndsWith fname ".tar.gz" then
    (tarContents fname).filterMap (fun m =>
      if m.isreg then some (pathName m.name, WriteSource.tarEntry fname m.name) else none)
  else
    [(fname, WriteSource.plainCopy fname)]

/-- All writes into one particle's extraction directory: the compressed files
are handled in list order, so later writes overwrite earlier ones. -/
def particleExtractionWrites (zipContents : String → List String)
    (tarContents : String → List TarMember) (compressed_files : List String) :
    List (String × WriteSource) :=
  compressed_files.flatMap (compressedFileWrites zipContents tarContents)

/-- Content visible after a sequence of writes: the last write to `k` wins. -/
def lookupLast {α β : Type} [BEq α] (ws : List (α × β)) (k : α) : Option β :=
  ((ws.filter (fun e => e.1 == k)).getLast?).map (fun e => e.2)

/-- generate_jendl.py lines 227-234: the errata rename pairs
`(p, destination_dir / p.name)`, with
`destination_dir = endf_files_dir / particle / details["endf_dir"]`, produced
pattern by pattern over the `rglob` matches `matched`. -/
def errataRenames (particle_dir : PyPath) (endf_dir : String)
    (pattern_errata : List String) (matched : String → List PyPath) :
    List (PyPath × PyPath) :=
  pattern_errata.flatMap (fun pat =>
    (matched pat).map (fun p => (p, particle_dir ++ [endf_dir, pname p])))

/-- `Path.rename` over a write-sequence filesystem: the content stored at
`src` moves to `dst`, replacing any file already recorded at `dst` (POSIX
rename semantics). -/
def fsRename {β : Type} (fs : List (PyPath × β)) (src dst : PyPath) : List (PyPath × β) :=
  match lookupLast fs src with
  | none => fs
  | some c => (fs.filter (fun e => !(e.1 == src) && !(e.1 == dst))) ++ [(dst, c)]

/-- generate_jendl_chain.py lines 107-111: the target of one errata rename,
`(endf_files_dir / details["endf_files"]).parent / p.name`. -/
def jendlChainRenameTarget (endf_files_dir : PyPath) (endf_files : String) (p : PyPath) : PyPath :=
  ((endf_files_dir ++ pathParts endf_files).dropLast) ++ [pname p]

/-! ## The registration sort key
(generate_endf.py lines 68-73, generate_jendl.py lines 62-67)

`sort_key` returns the Python tuple `(1000, path)` for a file whose name
starts with `c_`, and `openmc.data.zam(path.stem)` otherwise.  `zam` belongs
to the external nuclear-data library and is kept abstract, as a parameter
`zam : String → Nat × Nat × Nat` giving the (Z, A, metastable) triple of an
evaluation name.  Keys are compared as Python compares the underlying
values: tuples elementwise, paths part by part.
-/

/-- The value returned by `sort_key`. -/
inductive SortKey where
  | thermalKey (path : PyPath)
  | zamKey (z a m : Nat)
deriving DecidableEq, Repr

/-- `sort_key(path)` from the scripts, with the external `zam` abstract. -/
def sort_key (zam : String → Nat × Nat × Nat) (path : PyPath) : SortKey :=
  if strStartsWith (pname path) "c_" then SortKey.thermalKey path
  else
    SortKey.zamKey (zam (stemOfName (pname path))).1
      (zam (stemOfName (pname path))).2.1 (zam (stemOfName (pname path))).2.2

/-- Lexicographic comparison of two paths by parts, as Python compares
`PurePath` objects via their parts tuples. -/
def listStrLe : List String → List String → Bool
  | [], _ => true
  | _ :: _, [] => false
  | x :: xs, y :: ys => if x = y then listStrLe xs ys else decide (x < y)

/-- Lexicographic comparison of two (Z, A, M) triples. -/
def zamTupleLe (z a m z' a' m' : Nat) : Bool :=
  if z = z' then (if a = a' then decide (m ≤ m') else decide (a < a')) else decide (z < z')

/-- Comparison of two sort keys as Python compares the underlying tuples.  A
`thermalKey` `(1000, path)` against a `zamKey` `(Z, A, M)` is decided by the
first components when `Z ≠ 1000`; at `Z = 1000` Python would fall through to
comparing a path against an integer and raise `TypeError` — that case is
given the fixed answer `zamKey ≤ thermalKey` here, and theorems about mixed
keys assume `Z < 1000` (real nuclides have `Z ≤ 118`). -/
def sortKeyLe : SortKey → SortKey → Bool
  | SortKey.thermalKey p, SortKey.thermalKey q => listStrLe p q
  | SortKey.zamKey z a m, SortKey.zamKey z' a' m' => zamTupleLe z a m z' a' m'
  | SortKey.zamKey z _ _, SortKey.thermalKey _ => decide (z ≤ 1000)
  | SortKey.thermalKey _, SortKey.zamKey z _ _ => decide (1000 < z)

/-- `sorted(l, key=key)`, modelled as a comparison sort by the key order. -/
def pythonSortedBy {α : Type} (key : α → SortKey) (l : List α) : List α :=
  List.insertionSort (fun x y => sortKeyLe (key x) (key y) = true) l

/-- `sorted(paths)` on plain paths (used for the wmp and photon file
lists). -/
def pythonSortedPaths (l : List PyPath) : List PyPath :=
  List.insertionSort (fun x y => listStrLe x y = true) l

/-! ## Library registration and export
(generate_endf.py lines 433-505, generate_jendl.py lines 244-346)
-/

/-- One `openmc.data.DataLibrary` operation performed by `main`. -/
inductive LibEvent where
  | registerFile (p : PyPath)
  | exportXml (p : PyPath)
deriving DecidableEq, Repr

/-- `for p in sorted((destination / particle).glob('*.h5'), key=sort_key):
library.register_file(p)` — `dirFiles` lists the file names present in the
particle's output directory. -/
def registerSorted (zam : String → Nat × Nat × Nat) (destination : PyPath)
    (particle : String) (dirFiles : List String) : List LibEvent :=
  (pythonSortedBy (sort_key zam)
      ((dirFiles.filter (fun n => strEndsWith n ".h5")).map
        (fun n => destination ++ [particle, n]))).map LibEvent.registerFile

/-- The registration and export phase of generate_endf.py (lines 433-505):
the per-particle registration blocks in source order, then
`library.export_to_xml(args.destination / 'cross_sections.xml')`.
`photonNames` is the sequence of `data.name` values produced while
converting the zipped photoatomic/relaxation pairs, in conversion order
(each converted file is registered immediately); `wmpFiles` is the
`rglob('*.h5')` result under `destination / 'wmp'`. -/
def endfLibraryPhase (particles : List String) (destination : PyPath)
    (zam : String → Nat × Nat × Nat)
    (neutronDirFiles thermalDirFiles : List String)
    (photonNames : List String) (wmpFiles : List PyPath) : List LibEvent :=
  (if "neutron" ∈ particles then registerSorted zam destination "neutron" neutronDirFiles else [])
    ++ (if "thermal" ∈ particles then registerSorted zam destination "thermal" thermalDirFiles else [])
    ++ (if "photon" ∈ particles then
          photonNames.map (fun n => LibEvent.registerFile (destination ++ ["photon", n ++ ".h5"]))
        else [])
    ++ (if "wmp" ∈ particles then (pythonSortedPaths wmpFiles).map LibEvent.registerFile else [])
    ++ [LibEvent.exportXml (destination ++ ["cross_sections.xml"])]

/-- The registration and export phase of generate_jendl.py (lines 244-346):
neutron and thermal blocks register the sorted `*.h5` glob of their output
directories, the photon block registers each converted file immediately,
and the cross-section index is exported last. -/
def jendlLibraryPhase (particles : List String) (destination : PyPath)
    (zam : String → Nat × Nat × Nat)
    (neutronDirFiles thermalDirFiles : List String)
    (photonNames : List String) : List LibEvent :=
  (if "neutron" ∈ particles then registerSorted zam destination "neutron" neutronDirFiles else [])
    ++ (if "thermal" ∈ particles then registerSorted zam destination "thermal" thermalDirFiles else [])
    ++ (if "photon" ∈ particles then
          photonNames.map (fun n => LibEvent.registerFile (destination ++ ["photon", n ++ ".h5"]))
        else [])
    ++ [LibEvent.exportXml (destination ++ ["cross_sections.xml"])]

/-! ## Depletion chain scripts
(src/depletion/generate_endf81_chain.py, generate_jendl_chain.py,
generate_jeff33_chain.py, generate_jeff40_chain.py)
-/

/-- Where a chain-construction argument's evaluations are read from.
Modelled from the spec: `utils.fix_missing_tpid` is not under `src/`; per the
spec's "file renaming/patching (e.g., fixing missing header records)" it is a
context manager yielding a patched copy of its argument file, represented
here by the distinguished handle `tpidFixedPath p`, distinct from the raw
path handle `path p`. -/
inductive EvalSource where
  | path (p : PyPath)
  | tpidFixedPath (orig : PyPath)
deriving DecidableEq, Repr

/-- One positional argument of `Chain.from_endf`: either a list of files or
evaluations already loaded from a source by
`openmc.data.endf.get_evaluations`. -/
inductive ChainArg where
  | files (fs : List PyPath)
  | evalsFrom (src : EvalSource)
deriving DecidableEq, Repr

/-- One step of a chain script's `main`, in program order. -/
inductive ChainStep where
  | raiseFileNotFound (msg : String)
  | fixMissingTpid (file : PyPath)
  | getEvaluations (src : EvalSource)
  | constructChain (decay nfy neutron : ChainArg)
  | exportChain (dest : String)
deriving DecidableEq, Repr

/-- The missing-file check loop shared verbatim by generate_endf81_chain.py
(lines 38-41) and generate_jendl_chain.py (lines 143-146): the first empty
file list raises `FileNotFoundError(f"No {ftype} endf files found in {d}")`;
the result is that message, or `none` when no list is empty. -/
def checkFilesMsg (d : String) : List (List PyPath × String) → Option String
  | [] => none
  | (flist, ftype) :: rest =>
    if flist = [] then some ("No " ++ ftype ++ " endf files found in " ++ d)
    else checkFilesMsg d rest

/-- generate_endf81_chain.py `main` after file resolution (lines 33-45): the
check loop over decay/neutron/nfy, then
`Chain.from_endf(decay_files, nfy_files, neutron_files)` and export. -/
def endf81Run (endf_path : String) (chain_path : String)
    (decay_files neutron_files nfy_files : List PyPath) : List ChainStep :=
  match checkFilesMsg endf_path
      [(decay_files, "decay"), (neutron_files, "neutron"),
       (nfy_files, "neutron fission product yield")] with
  | some msg => [ChainStep.raiseFileNotFound msg]
  | none =>
    [ChainStep.constructChain (ChainArg.files decay_files) (ChainArg.files nfy_files)
        (ChainArg.files neutron_files),
     ChainStep.exportChain chain_path]

/-- The `if not flist` check loop of generate_jendl_chain.py (lines 144-147)
over the Python falsiness of each entry: the first falsy entry raises
`FileNotFoundError(f"No {ftype} endf files found in {d}")`. -/
def checkEntriesMsg (d : String) : List (Bool × String) → Option String
  | [] => none
  | (falsy, ftype) :: rest =>
    if falsy then some ("No " ++ ftype ++ " endf files found in " ++ d)
    else checkEntriesMsg d rest

/-- generate_jendl_chain.py `main` after file resolution (lines 93-153).
`decay_files` and `nfy_files` are materialised with `list(...)` (lines 129
and 141), so their entries in the check loop are falsy exactly when the list
is empty; but in the download path `neutron_files` is the bare `Path.glob`
generator of line 111 (and in the `--neutron` path a non-empty argparse
list), and a generator object is always truthy, so the `if not flist` check
of line 146 can never fire for neutron.  An empty neutron glob therefore
proceeds to `Chain.from_endf(decay_files, nfy_files, neutron_files)`
unchecked. -/
def jendlChainRun (endf_files_dir : String) (dest : String)
    (decay_files neutron_files nfy_files : List PyPath) : List ChainStep :=
  match checkEntriesMsg endf_files_dir
      [(decide (decay_files = []), "decay"),
       (false, "neutron"),
       (decide (nfy_files = []), "neutron fission product yield")] with
  | some msg => [ChainStep.raiseFileNotFound msg]
  | none =>
    [ChainStep.constructChain (ChainArg.files decay_files) (ChainArg.files nfy_files)
        (ChainArg.files neutron_files),
     ChainStep.exportChain dest]

/-- `(endf_path / "nfy") / "JEFF33-nfy.asc"`. -/
def jeff33_nfy_file (endf_path : PyPath) : PyPath :=
  endf_path ++ ["nfy", "JEFF33-nfy.asc"]

/-- generate_jeff33_chain.py `main` after file resolution (lines 42-52): no
missing-file check is performed; the NFY evaluations are loaded from the
TPID-fixed path and chain construction proceeds unconditionally. -/
def jeff33Run (endf_path : PyPath) (chain_path : String)
    (decay_files neutron_files : List PyPath) : List ChainStep :=
  [ChainStep.fixMissingTpid (jeff33_nfy_file endf_path),
   ChainStep.getEvaluations (EvalSource.tpidFixedPath (jeff33_nfy_file endf_path)),
   ChainStep.constructChain (ChainArg.files decay_files)
     (ChainArg.evalsFrom (EvalSource.tpidFixedPath (jeff33_nfy_file endf_path)))
     (ChainArg.files neutron_files),
   ChainStep.exportChain chain_path]

/-- `(endf_path / "nfy") / "nf_Fission_Yields_JEFF-40.txt"`. -/
def jeff40_nfy_path (endf_path : PyPath) : PyPath :=
  endf_path ++ ["nfy", "nf_Fission_Yields_JEFF-40.txt"]

/-- `(endf_path / "decay") / "Radioactive_Decay_Data_JEFF-40.txt"`. -/
def jeff40_decay_path (endf_path : PyPath) : PyPath :=
  endf_path ++ ["decay", "Radioactive_Decay_Data_JEFF-40.txt"]

/-- generate_jeff40_chain.py `main` after file resolution (lines 45-56): no
missing-file check; NFY evaluations from the TPID-fixed path, decay
evaluations from the plain decay path, then chain construction. -/
def jeff40Run (endf_path : PyPath) (chain_path : String)
    (neutron_files : List PyPath) : List ChainStep :=
  [ChainStep.fixMissingTpid (jeff40_nfy_path endf_path),
   ChainStep.getEvaluations (EvalSource.tpidFixedPath (jeff40_nfy_path endf_path)),
   ChainStep.getEvaluations (EvalSource.path (jeff40_decay_path endf_path)),
   ChainStep.constructChain (ChainArg.evalsFrom (EvalSource.path (jeff40_decay_path endf_path)))
     (ChainArg.evalsFrom (EvalSource.tpidFixedPath (jeff40_nfy_path endf_path)))
     (ChainArg.files neutron_files),
   ChainStep.exportChain chain_path]

/-- Whether a step is a `Chain.from_endf` call. -/
def isConstructChain : ChainStep → Bool
  | ChainStep.constructChain _ _ _ => true
  | _ => false

/-- Whether a step raises `FileNotFoundError`. -/
def isRaiseFileNotFound : ChainStep → Bool
  | ChainStep.raiseFileNotFound _ => true
  | _ => false

/-- The fission-product-yield argument of a `Chain.from_endf` step. -/
def nfyArgOf : ChainStep → Option ChainArg
  | ChainStep.constructChain _ y _ => some y
  | _ => none

/-! ## Process-pool fan-out
(generate_endf.py lines 435-455, generate_jendl.py lines 246-263)
-/

/-- The argument tuple handed to one `process_neutron` task:
`(filename, args.destination / particle, args.libver, args.temperatures)`.
The temperature list is carried opaquely (type `τ`): it is data passed
through to the external library, never inspected by the scripts. -/
structure NeutronArgs (τ : Type) where
  filename : PyPath
  outDir : PyPath
  libver : String
  temperatures : τ
deriving DecidableEq

/-- One event of a neutron-processing section, in program order. -/
inductive PoolEvent (τ : Type) where
  | submit (args : NeutronArgs τ)
  | wait (idx : Nat)
  | registerFile (p : PyPath)
deriving DecidableEq

/-- generate_endf.py lines 440-449: the evaluation files actually submitted
to the pool — every `endf_files` entry except the one named
`n-000_n_001.endf`, which is skipped. -/
def endfNeutronSubmitted (endf_files : List PyPath) : List PyPath :=
  endf_files.filter (fun f => !(pname f == "n-000_n_001.endf"))

/-- generate_endf.py lines 435-455, as an event trace: one submission per
non-skipped evaluation file, then one wait per submitted task
(`for r in results: r.wait()`), then the registration loop over the sorted
`*.h5` glob of the output directory. -/
def endfNeutronTrace (τ : Type) (endf_files : List PyPath) (destination : PyPath)
    (libver : String) (temperatures : τ) (zam : String → Nat × Nat × Nat)
    (neutronDirFiles : List String) : List (PoolEvent τ) :=
  ((endfNeutronSubmitted endf_files).map (fun f =>
      PoolEvent.submit ⟨f, destination ++ ["neutron"], libver, temperatures⟩))
    ++ ((List.range (endfNeutronSubmitted endf_files).length).map PoolEvent.wait)
    ++ ((pythonSortedBy (sort_key zam)
          ((neutronDirFiles.filter (fun n => strEndsWith n ".h5")).map
            (fun n => destination ++ ["neutron", n]))).map PoolEvent.registerFile)

def jendl5_neutron_patterns : List String :=
  ["n_???-*-???.dat", "n_???-*-???m?.dat"]

/-- generate_jendl.py lines 252-257: the evaluation files submitted to the
pool — the glob results of each pattern over the neutron evaluation
directory, in pattern order (`glob` abstracts the directory contents). -/
def jendlNeutronSubmitted (glob : String → List PyPath) (patterns : List String) : List PyPath :=
  patterns.flatMap glob

/-- generate_jendl.py lines 246-263 as an event trace, analogous to
`endfNeutronTrace`. -/
def jendlNeutronTrace (τ : Type) (glob : String → List PyPath) (destination : PyPath)
    (libver : String) (temperatures : τ) (zam : String → Nat × Nat × Nat)
    (neutronDirFiles : List String) : List (PoolEvent τ) :=
  ((jendlNeutronSubmitted glob jendl5_neutron_patterns).map (fun f =>
      PoolEvent.submit ⟨f, destination ++ ["neutron"], libver, temperatures⟩))
    ++ ((List.range (jendlNeutronSubmitted glob jendl5_neutron_patterns).length).map
          PoolEvent.wait)
    ++ ((pythonSortedBy (sort_key zam)
          ((neutronDirFiles.filter (fun n => strEndsWith n ".h5")).map
            (fun n => destination ++ ["neutron", n]))).map PoolEvent.registerFile)

/-- Whether a pool event is a task submission. -/
def isSubmit {τ : Type} : PoolEvent τ → Bool
  | PoolEvent.submit _ => true
  | _ => false

/-- Whether a pool event is a task wait. -/
def isWait {τ : Type} : PoolEvent τ → Bool
  | PoolEvent.wait _ => true
  | _ => false

/-- Whether a pool event is a library registration. -/
def isRegister {τ : Type} : PoolEvent τ → Bool
  | PoolEvent.registerFile _ => true
  | _ => false

/-- In trace `tr`, every event satisfying `p` occurs before every event
satisfying `q`. -/
def precedesAll {ε : Type} (p q : ε → Bool) (tr : List ε) : Prop :=
  ∀ i j (hi : i < tr.length) (hj : j < tr.length),
    p (tr.get ⟨i, hi⟩) = true → q (tr.get ⟨j, hj⟩) = true → i < j

/-! ## JENDL thermal stage (generate_jendl.py lines 268-323) -/

/-- The 62 `sab_files` pairs of the JENDL-5 thermal entry (lines 109-184). -/
def jendl5_sab_files : List (String × String) :=
  [("n_001-H-001.dat", "tsl_HinC5O2H8.dat"),
   ("n_001-H-001.dat", "tsl_HinCH2.dat"),
   ("n_001-H-001.dat", "tsl_HinH2O.dat"),
   ("n_001-H-001.dat", "tsl_HinIceIh.dat"),
   ("n_001-H-001.dat", "tsl_HinLiquidBenzene.dat"),
   ("n_001-H-001.dat", "tsl_HinLiquidEthanol.dat"),
   ("n_001-H-001.dat", "tsl_HinLiquidMesitylene.dat"),
   ("n_001-H-001.dat", "tsl_HinLiquidMethane.dat"),
   ("n_001-H-001.dat", "tsl_HinLiquidM-Xylene.dat"),
   ("n_001-H-001.dat", "tsl_HinLiquidToluene.dat"),
   ("n_001-H-001.dat", "tsl_HinLiquidTriphenylmethane.dat"),
   ("n_001-H-001.dat", "tsl_HinOrthoH.dat"),
   ("n_001-H-001.dat", "tsl_HinParaH.dat"),
   ("n_001-H-001.dat", "tsl_HinSolidBenzene.dat"),
   ("n_001-H-001.dat", "tsl_HinSolidEthanol.dat"),
   ("n_001-H-001.dat", "tsl_HinSolidMesitylene.dat"),
   ("n_001-H-001.dat", "tsl_HinSolidMethane.dat"),
   ("n_001-H-001.dat", "tsl_HinSolidM-Xylene.dat"),
   ("n_001-H-001.dat", "tsl_HinSolidToluene.dat"),
   ("n_001-H-001.dat", "tsl_HinSolidTriphenylmethane.dat"),
   ("n_001-H-001.dat", "tsl_HinYH2.dat"),
   ("n_001-H-001.dat", "tsl_HinZrH.dat"),
   ("n_001-H-002.dat", "tsl_DinD2O.dat"),
   ("n_001-H-002.dat", "tsl_DinOrthoD.dat"),
   ("n_001-H-002.dat", "tsl_DinParaD.dat"),
   ("n_004-Be-009.dat", "tsl_Be-metal.dat"),
   ("n_004-Be-009.dat", "tsl_BeinBeO.dat"),
   ("n_006-C-012.dat", "tsl_CinLiquidBenzene.dat"),
   ("n_006-C-012.dat", "tsl_CinLiquidEthanol.dat"),
   ("n_006-C-012.dat", "tsl_CinLiquidMesitylene.dat"),
   ("n_006-C-012.dat", "tsl_CinLiquidMethane.dat"),
   ("n_006-C-012.dat", "tsl_CinLiquidM-Xylene.dat"),
   ("n_006-C-012.dat", "tsl_CinLiquidToluene.dat"),
   ("n_006-C-012.dat", "tsl_CinLiquidTriphenylmethane.dat"),
   ("n_006-C-012.dat", "tsl_CinSiC.dat"),
   ("n_006-C-012.dat", "tsl_CinSolidBenzene.dat"),
   ("n_006-C-012.dat", "tsl_CinSolidEthanol.dat"),
   ("n_006-C-012.dat", "tsl_CinSolidMesitylene.dat"),
   ("n_006-C-012.dat", "tsl_CinSolidMethane.dat"),
   ("n_006-C-012.dat", "tsl_CinSolidM-Xylene.dat"),
   ("n_006-C-012.dat", "tsl_CinSolidToluene.dat"),
   ("n_006-C-012.dat", "tsl_CinSolidTriphenylmethane.dat"),
   ("n_006-C-012.dat", "tsl_crystalline-graphite.dat"),
   ("n_006-C-012.dat", "tsl_reactor-graphite-10P.dat"),
   ("n_006-C-012.dat", "tsl_reactor-graphite-30P.dat"),
   ("n_007-N-014.dat", "tsl_NinUN.dat"),
   ("n_008-O-016.dat", "tsl_OinBeO.dat"),
   ("n_008-O-016.dat", "tsl_OinD2O.dat"),
   ("n_008-O-016.dat", "tsl_OinH2O.dat"),
   ("n_008-O-016.dat", "tsl_OinIceIh.dat"),
   ("n_008-O-016.dat", "tsl_OinLiquidEthanol.dat"),
   ("n_008-O-016.dat", "tsl_OinSolidEthanol.dat"),
   ("n_008-O-016.dat", "tsl_OinUO2.dat"),
   ("n_013-Al-027.dat", "tsl_013_Al_027.dat"),
   ("n_014-Si-028.dat", "tsl_SiinSiC.dat"),
   ("n_014-Si-028.dat", "tsl_SiO2-alpha.dat"),
   ("n_014-Si-028.dat", "tsl_SiO2-beta.dat"),
   ("n_026-Fe-056.dat", "tsl_026_Fe_056.dat"),
   ("n_039-Y-089.dat", "tsl_YinYH2.dat"),
   ("n_040-Zr-090.dat", "tsl_ZrinZrH.dat"),
   ("n_092-U-238.dat", "tsl_UinUN.dat"),
   ("n_092-U-238.dat", "tsl_UinUO2.dat")]

/-- The `update_thermal_list` of generate_jendl.py (lines 275-306): the
liquid/solid thermal evaluations patched to carry unique ZSYMAM symbols,
with their replacement symbols. -/
def update_thermal_list : List (String × String) :=
  [("tsl_CinLiquidBenzene.dat", "c(c6h6)l"),
   ("tsl_CinLiquidEthanol.dat", "c(c2h6o)l"),
   ("tsl_CinLiquidM-Xylene.dat", "c(m-c8h10)l"),
   ("tsl_CinLiquidMesitylene.dat", "c(c9h12)l"),
   ("tsl_CinLiquidMethane.dat", "c(ch4)l"),
   ("tsl_CinLiquidToluene.dat", "c(c7h8)l"),
   ("tsl_CinLiquidTriphenylmethane.dat", "c(c19h16)l"),
   ("tsl_CinSolidBenzene.dat", "c(c6h6)s"),
   ("tsl_CinSolidEthanol.dat", "c(c2h6o)s"),
   ("tsl_CinSolidM-Xylene.dat", "c(m-c8h10)s"),
   ("tsl_CinSolidMesitylene.dat", "c(c9h12)s"),
   ("tsl_CinSolidMethane.dat", "c(ch4)s"),
   ("tsl_CinSolidToluene.dat", "c(c7h8)s"),
   ("tsl_CinSolidTriphenylmethane.dat", "c(c19h16)s"),
   ("tsl_HinLiquidBenzene.dat", "h(c6h6)l"),
   ("tsl_HinLiquidEthanol.dat", "h(c2h6o)l"),
   ("tsl_HinLiquidM-Xylene.dat", "h(m-c8h10)l"),
   ("tsl_HinLiquidMesitylene.dat", "h(c9h12)l"),
   ("tsl_HinLiquidMethane.dat", "h(ch4)l"),
   ("tsl_HinLiquidToluene.dat", "h(c7h8)l"),
   ("tsl_HinLiquidTriphenylmethane.dat", "h(c19h16)l"),
   ("tsl_HinSolidBenzene.dat", "h(c6h6)s"),
   ("tsl_HinSolidEthanol.dat", "h(c2h6o)s"),
   ("tsl_HinSolidM-Xylene.dat", "h(m-c8h10)s"),
   ("tsl_HinSolidMesitylene.dat", "h(c9h12)s"),
   ("tsl_HinSolidMethane.dat", "h(ch4)s"),
   ("tsl_HinSolidToluene.dat", "h(c7h8)s"),
   ("tsl_HinSolidTriphenylmethane.dat", "h(c19h16)s"),
   ("tsl_OinLiquidEthanol.dat", "o(c2h6o)l"),
   ("tsl_OinSolidEthanol.dat", "o(c2h6o)s")]

/-- One event of the JENDL thermal stage, in program order. -/
inductive ThermalEvent where
  | updateZsymam (file : PyPath) (zsymam : String)
  | submitThermal (path_neutron path_thermal outDir : PyPath) (libver : String)
  | wait (idx : Nat)
  | registerFile (p : PyPath)
deriving DecidableEq, Repr

/-- generate_jendl.py lines 268-323 as an event trace: the ZSYMAM patch loop
over `update_thermal_list` (`update_zsymam(thermal_dir / filename, zsymam)`),
then one `process_thermal` submission per `sab_files` pair, the wait loop,
then the registration loop over the sorted `*.h5` glob of
`destination / 'thermal'`. -/
def jendlThermalTrace (neutron_dir thermal_dir destination : PyPath)
    (libver : String) (zam : String → Nat × Nat × Nat)
    (thermalDirFiles : List String) : List ThermalEvent :=
  (update_thermal_list.map (fun fz => ThermalEvent.updateZsymam (thermal_dir ++ [fz.1]) fz.2))
    ++ (jendl5_sab_files.map (fun pp =>
          ThermalEvent.submitThermal (neutron_dir ++ [pp.1]) (thermal_dir ++ [pp.2])
            (destination ++ ["thermal"]) libver))
    ++ ((List.range jendl5_sab_files.length).map ThermalEvent.wait)
    ++ ((pythonSortedBy (sort_key zam)
          ((thermalDirFiles.filter (fun n => strEndsWith n ".h5")).map
            (fun n => destination ++ ["thermal", n]))).map ThermalEvent.registerFile)

/-- Whether a thermal-stage event is a ZSYMAM patch. -/
def isUpdateZsymam : ThermalEvent → Bool
  | ThermalEvent.updateZsymam _ _ => true
  | _ => false

/-- Whether a thermal-stage event is a task submission. -/
def isSubmitThermal : ThermalEvent → Bool
  | ThermalEvent.submitThermal _ _ _ _ => true
  | _ => false

/-- Modelled from the spec: `utils.process_neutron` is not under `src/`; per
the spec's "multiprocessing fan-out over per-isotope processing calls" each
submitted task converts its evaluation file into one HDF5 output, named by an
abstract function `out`.  In a clean run the neutron output directory holds
exactly the submitted tasks' outputs. -/
def endfNeutronOutputs (out : PyPath → String) (endf_files : List PyPath) : List String :=
  (endfNeutronSubmitted endf_files).map out

/-! ## Helper lemmas -/

theorem precedesAll_append {ε : Type} (p q : ε → Bool) (A B : List ε)
    (hA : ∀ e ∈ A, q e = false) (hB : ∀ e ∈ B, p e = false) :
    precedesAll p q (A ++ B) := by
  intro i j hi hj hp hq
  have hjA : ¬ j < A.length := by
    intro hja
    have hg : (A ++ B).get ⟨j, hj⟩ = A.get ⟨j, hja⟩ := by
      simp only [List.get_eq_getElem]
      exact List.getElem_append_left hja
    rw [hg] at hq
    have hf := hA _ (List.get_mem A j hja)
    rw [hf] at hq
    exact Bool.false_ne_true hq
  have hiA : i < A.length := by
    by_contra hia
    push_neg at hia
    have hm : (A ++ B).get ⟨i, hi⟩ ∈ B := by
      simp only [List.get_eq_getElem]
      rw [List.getElem_append_right hia]
      exact List.getElem_mem _
    have hf := hB _ hm
    rw [hf] at hp
    exact Bool.false_ne_true hp
  omega

theorem lookupLast_concat_self {α β : Type} [BEq α] [LawfulBEq α]
    (ws : List (α × β)) (k : α) (v : β) :
    lookupLast (ws ++ [(k, v)]) k = some v := by
  unfold lookupLast
  rw [List.filter_append]
  simp

theorem lookupLast_fsRename {β : Type} (fs : List (PyPath × β)) (src dst : PyPath) (c : β)
    (h : lookupLast fs src = some c) :
    lookupLast (fsRename fs src dst) dst = some c := by
  unfold fsRename
  rw [h]
  unfold lookupLast
  rw [List.filter_append]
  have hnil : (fs.filter (fun e => !(e.1 == src) && !(e.1 == dst))).filter
      (fun e => e.1 == dst) = [] := by
    rw [List.filter_eq_nil_iff]
    intro e he
    have := (List.mem_filter.mp he).2
    simp only [Bool.and_eq_true, Bool.not_eq_true'] at this
    simp [this.2]
  rw [hnil]
  simp

theorem listStrLe_total : ∀ (p q : List String), listStrLe p q = true ∨ listStrLe q p = true
  | [], _ => Or.inl rfl
  | _ :: _, [] => Or.inr rfl
  | x :: xs, y :: ys => by
    rcases lt_trichotomy x y with hxy | hxy | hxy
    · left; simp [listStrLe, ne_of_lt hxy, hxy]
    · subst hxy
      rcases listStrLe_total xs ys with h | h
      · left; simpa [listStrLe] using h
      · right; simpa [listStrLe] using h
    · right; simp [listStrLe, ne_of_lt hxy, (ne_of_lt hxy).symm, hxy]

theorem listStrLe_trans : ∀ {p q r : List String},
    listStrLe p q = true → listStrLe q r = true → listStrLe p r = true
  | [], _, _, _, _ => rfl
  | x :: xs, [], r, h, _ => by simp [listStrLe] at h
  | x :: xs, y :: ys, [], _, h2 => by simp [listStrLe] at h2
  | x :: xs, y :: ys, z :: zs, h1, h2 => by
    by_cases hxy : x = y
    · subst hxy
      by_cases hxz : x = z
      · subst hxz
        simp only [listStrLe, if_pos rfl] at h1 h2 ⊢
        exact listStrLe_trans h1 h2
      · simp only [listStrLe, if_pos rfl] at h1
        simpa [listStrLe, hxz] using h2
    · by_cases hyz : y = z
      · subst hyz
        simpa [listStrLe, hxy] using h1
      · have hlt1 : x < y := by simpa [listStrLe, hxy] using h1
        have hlt2 : y < z := by simpa [listStrLe, hyz] using h2
        have hxz : x < z := lt_trans hlt1 hlt2
        simp [listStrLe, ne_of_lt hxz, hxz]

theorem zamTupleLe_iff (z a m z' a' m' : Nat) :
    zamTupleLe z a m z' a' m' = true ↔
      (z < z' ∨ (z = z' ∧ (a < a' ∨ (a = a' ∧ m ≤ m')))) := by
  unfold zamTupleLe
  split_ifs <;> simp_all

theorem sortKeyLe_total : ∀ (k k' : SortKey), sortKeyLe k k' = true ∨ sortKeyLe k' k = true
  | SortKey.thermalKey p, SortKey.thermalKey q => listStrLe_total p q
  | SortKey.zamKey z a m, SortKey.zamKey z' a' m' => by
    simp only [sortKeyLe, zamTupleLe_iff]; omega
  | SortKey.zamKey z _ _, SortKey.thermalKey _ => by
    simp only [sortKeyLe, decide_eq_true_eq]; omega
  | SortKey.thermalKey _, SortKey.zamKey z _ _ => by
    simp only [sortKeyLe, decide_eq_true_eq]; omega

theorem sortKeyLe_trans : ∀ {k₁ k₂ k₃ : SortKey},
    sortKeyLe k₁ k₂ = true → sortKeyLe k₂ k₃ = true → sortKeyLe k₁ k₃ = true
  | SortKey.thermalKey _, SortKey.thermalKey _, SortKey.thermalKey _, h1, h2 =>
    listStrLe_trans h1 h2
  | SortKey.thermalKey _, SortKey.thermalKey _, SortKey.zamKey _ _ _, _, h2 => h2
  | SortKey.thermalKey _, SortKey.zamKey _ _ _, SortKey.thermalKey _, h1, h2 => by
    simp only [sortKeyLe, decide_eq_true_eq] at h1 h2
    omega
  | SortKey.thermalKey _, SortKey.zamKey _ _ _, SortKey.zamKey _ _ _, h1, h2 => by
    simp only [sortKeyLe, decide_eq_true_eq, zamTupleLe_iff] at h1 h2 ⊢
    omega
  | SortKey.zamKey _ _ _, SortKey.thermalKey _, SortKey.thermalKey _, h1, _ => h1
  | SortKey.zamKey _ _ _, SortKey.thermalKey _, SortKey.zamKey _ _ _, h1, h2 => by
    simp only [sortKeyLe, decide_eq_true_eq, zamTupleLe_iff] at h1 h2 ⊢
    omega
  | SortKey.zamKey _ _ _, SortKey.zamKey _ _ _, SortKey.thermalKey _, h1, h2 => by
    simp only [sortKeyLe, decide_eq_true_eq, zamTupleLe_iff] at h1 h2 ⊢
    omega
  | SortKey.zamKey _ _ _, SortKey.zamKey _ _ _, SortKey.zamKey _ _ _, h1, h2 => by
    simp only [sortKeyLe, zamTupleLe_iff] at h1 h2 ⊢
    omega

theorem mem_pythonSortedBy {α : Type} (key : α → SortKey) (l : List α) (x : α) :
    x ∈ pythonSortedBy key l ↔ x ∈ l :=
  List.mem_insertionSort _

theorem sorted_pythonSortedBy {α : Type} (key : α → SortKey) (l : List α) :
    List.Sorted (fun x y => sortKeyLe (key x) (key y) = true) (pythonSortedBy key l) := by
  haveI : IsTotal α (fun x y => sortKeyLe (key x) (key y) = true) :=
    ⟨fun a b => sortKeyLe_total (key a) (key b)⟩
  haveI : IsTrans α (fun x y => sortKeyLe (key x) (key y) = true) :=
    ⟨fun _ _ _ => sortKeyLe_trans⟩
  exact List.sorted_insertionSort _ l

theorem mem_pythonSortedPaths (l : List PyPath) (x : PyPath) :
    x ∈ pythonSortedPaths l ↔ x ∈ l :=
  List.mem_insertionSort _

theorem mem_registerSorted (zam : String → Nat × Nat × Nat) (destination : PyPath)
    (particle n : String) (dirFiles : List String)
    (hn : n ∈ dirFiles) (h5 : strEndsWith n ".h5" = true) :
    LibEvent.registerFile (destination ++ [particle, n])
      ∈ registerSorted zam destination particle dirFiles := by
  unfold registerSorted
  apply List.mem_map_of_mem
  rw [mem_pythonSortedBy]
  exact List.mem_map_of_mem _ (List.mem_filter.mpr ⟨hn, h5⟩)

theorem checkFilesMsg_decay_empty (d : String) (a b c : List PyPath) (ha : a = []) :
    checkFilesMsg d [(a, "decay"), (b, "neutron"), (c, "neutron fission product yield")]
      = some ("No decay endf files found in " ++ d) := by
  simp [checkFilesMsg, ha]

theorem checkFilesMsg_neutron_empty (d : String) (a b c : List PyPath)
    (ha : a ≠ []) (hb : b = []) :
    checkFilesMsg d [(a, "decay"), (b, "neutron"), (c, "neutron fission product yield")]
      = some ("No neutron endf files found in " ++ d) := by
  simp [checkFilesMsg, ha, hb]

theorem checkFilesMsg_nfy_empty (d : String) (a b c : List PyPath)
    (ha : a ≠ []) (hb : b ≠ []) (hc : c = []) :
    checkFilesMsg d [(a, "decay"), (b, "neutron"), (c, "neutron fission product yield")]
      = some ("No neutron fission product yield endf files found in " ++ d) := by
  simp [checkFilesMsg, ha, hb, hc]

/-- C2: evaluation of the extraction logic at concrete archive members.  A
regular zip member is flattened to its base name in the extraction directory
and a non-regular tar member produces nothing, as the claim says; but a zip
*directory* member (a name ending in `/`) is NOT skipped:
`Path('ENDF-B-VIII.0_neutrons/').name` is `'ENDF-B-VIII.0_neutrons'`, which
is non-empty, so the script opens the directory entry and writes a zero-byte
file of that name into the extraction directory — contradicting the claim
and the script's own `# skip directories` comment (the check would only work
with `os.path.basename`, which maps `'d/'` to `''`). -/
theorem c2_zip_directory_member_not_skipped :
    zipMemberTarget ["endfb-viii.0-endf", "neutron"] "ENDF-B-VIII.0_neutrons/n-001_H_001.endf"
        = some ["endfb-viii.0-endf", "neutron", "n-001_H_001.endf"]
      ∧ tarMemberTarget ["endfb-viii.1-endf", "neutron"]
          { name := "neutrons/some_directory", isreg := false } = none
      ∧ zipMemberTarget ["endfb-viii.0-endf", "neutron"] "ENDF-B-VIII.0_neutrons/"
        = some ["endfb-viii.0-endf", "neutron", "ENDF-B-VIII.0_neutrons"] :=
  ⟨by decide, by decide, by decide⟩

/-- C1 counterexample: running the JEFF 3.3 chain script with empty decay and
neutron file sets still attempts chain construction and raises no
FileNotFoundError at all. -/
theorem c1_counterexample :
    (jeff33Run ["workdir"] "chain_jeff33.xml" [] []).any isConstructChain = true
      ∧ (jeff33Run ["workdir"] "chain_jeff33.xml" [] []).all
          (fun s => !(isRaiseFileNotFound s)) = true :=
  ⟨by decide, by decide⟩

/-- C1 (amended): in the ENDF/B-VIII.1 chain script an empty decay, neutron,
or fission-product-yield file set makes the run raise a FileNotFoundError
naming the missing file type (checked in that order) before any chain
construction.  In the JENDL chain script the decay and fission-product-yield
checks behave the same way, but the neutron entry of the check loop is the
always-truthy `Path.glob` generator, so an empty neutron glob is not caught:
the run proceeds to chain construction and raises nothing.  The JEFF 3.3 and
JEFF 4.0 chain scripts perform no check at all and attempt chain
construction regardless. -/
theorem c1_missing_file_check (endf_path chain_path : String)
    (decay neutron nfy : List PyPath) :
    (decay = [] →
      endf81Run endf_path chain_path decay neutron nfy
          = [ChainStep.raiseFileNotFound ("No decay endf files found in " ++ endf_path)]
        ∧ jendlChainRun endf_path chain_path decay neutron nfy
          = [ChainStep.raiseFileNotFound ("No decay endf files found in " ++ endf_path)])
    ∧ (decay ≠ [] → neutron = [] →
      endf81Run endf_path chain_path decay neutron nfy
          = [ChainStep.raiseFileNotFound ("No neutron endf files found in " ++ endf_path)])
    ∧ (decay ≠ [] → neutron ≠ [] → nfy = [] →
      endf81Run endf_path chain_path decay neutron nfy
          = [ChainStep.raiseFileNotFound
              ("No neutron fission product yield endf files found in " ++ endf_path)])
    ∧ ((decay = [] ∨ neutron = [] ∨ nfy = []) →
      ∀ s ∈ endf81Run endf_path chain_path decay neutron nfy, isConstructChain s = false)
    ∧ (decay ≠ [] → nfy = [] →
      jendlChainRun endf_path chain_path decay neutron nfy
          = [ChainStep.raiseFileNotFound
              ("No neutron fission product yield endf files found in " ++ endf_path)])
    ∧ (decay ≠ [] → nfy ≠ [] →
      jendlChainRun endf_path chain_path decay neutron nfy
          = [ChainStep.constructChain (ChainArg.files decay) (ChainArg.files nfy)
              (ChainArg.files neutron),
             ChainStep.exportChain chain_path])
    ∧ ((decay = [] ∨ nfy = []) →
      ∀ s ∈ jendlChainRun endf_path chain_path decay neutron nfy, isConstructChain s = false)
    ∧ (∀ (ep : PyPath) (dfs nfs : List PyPath),
        (jeff33Run ep chain_path dfs nfs).any isConstructChain = true
          ∧ (jeff33Run ep chain_path dfs nfs).all (fun s => !(isRaiseFileNotFound s)) = true)
    ∧ (∀ (ep : PyPath) (nfs : List PyPath),
        (jeff40Run ep chain_path nfs).any isConstructChain = true
          ∧ (jeff40Run ep chain_path nfs).all (fun s => !(isRaiseFileNotFound s)) = true) := by
  refine ⟨?_, ?_, ?_, ?_, ?_, ?_, ?_, ?_, ?_⟩
  · intro ha
    constructor
    · rw [endf81Run, checkFilesMsg_decay_empty endf_path decay neutron nfy ha]
    · rw [jendlChainRun, decide_eq_true ha]
      simp [checkEntriesMsg]
  · intro ha hb
    rw [endf81Run, checkFilesMsg_neutron_empty endf_path decay neutron nfy ha hb]
  · intro ha hb hc
    rw [endf81Run, checkFilesMsg_nfy_empty endf_path decay neutron nfy ha hb hc]
  · intro h s hs
    have hmsg : ∃ msg, checkFilesMsg endf_path
        [(decay, "decay"), (neutron, "neutron"),
         (nfy, "neutron fission product yield")] = some msg := by
      by_cases ha : decay = []
      · exact ⟨_, checkFilesMsg_decay_empty endf_path decay neutron nfy ha⟩
      · by_cases hb : neutron = []
        · exact ⟨_, checkFilesMsg_neutron_empty endf_path decay neutron nfy ha hb⟩
        · have hc : nfy = [] := by tauto
          exact ⟨_, checkFilesMsg_nfy_empty endf_path decay neutron nfy ha hb hc⟩
    obtain ⟨msg, hmsg⟩ := hmsg
    rw [endf81Run, hmsg] at hs
    simp at hs
    subst hs
    rfl
  · intro ha hc
    rw [jendlChainRun, decide_eq_false ha, decide_eq_true hc]
    simp [checkEntriesMsg]
  · intro ha hc
    rw [jendlChainRun, decide_eq_false ha, decide_eq_false hc]
    simp [checkEntriesMsg]
  · intro h s hs
    by_cases ha : decay = []
    · rw [jendlChainRun, decide_eq_true ha] at hs
      simp [checkEntriesMsg] at hs
      subst hs
      rfl
    · have hc : nfy = [] := by tauto
      rw [jendlChainRun, decide_eq_false ha, decide_eq_true hc] at hs
      simp [checkEntriesMsg] at hs
      subst hs
      rfl
  · intro ep dfs nfs
    exact ⟨by simp [jeff33Run, isConstructChain], by simp [jeff33Run, isRaiseFileNotFound]⟩
  · intro ep nfs
    exact ⟨by simp [jeff40Run, isConstructChain], by simp [jeff40Run, isRaiseFileNotFound]⟩

/-- C1 witness: the amended theorem applied at concrete runs — an empty
decay set raises the decay message in both checking scripts, and a JENDL run
whose neutron file set is empty but whose decay and nfy sets are not
proceeds to chain construction unchecked. -/
theorem c1_witness :
    (([] : List PyPath) = [])
      ∧ ([["d1.dat"]] : List PyPath) ≠ []
      ∧ ([["y1.dat"]] : List PyPath) ≠ []
      ∧ endf81Run "workdir" "chain_endfb81.xml" [] [["n1.endf"]] [["y1.endf"]]
          = [ChainStep.raiseFileNotFound "No decay endf files found in workdir"]
      ∧ jendlChainRun "workdir" "chain_endfb81.xml" [] [["n1.endf"]] [["y1.endf"]]
          = [ChainStep.raiseFileNotFound "No decay endf files found in workdir"]
      ∧ jendlChainRun "workdir" "chain_jendl5.xml" [["d1.dat"]] [] [["y1.dat"]]
          = [ChainStep.constructChain (ChainArg.files [["d1.dat"]])
              (ChainArg.files [["y1.dat"]]) (ChainArg.files []),
             ChainStep.exportChain "chain_jendl5.xml"] :=
  ⟨rfl, by decide, by decide,
   ((c1_missing_file_check "workdir" "chain_endfb81.xml" [] [["n1.endf"]] [["y1.endf"]]).1 rfl).1,
   ((c1_missing_file_check "workdir" "chain_endfb81.xml" [] [["n1.endf"]] [["y1.endf"]]).1 rfl).2,
   (c1_missing_file_check "workdir" "chain_jendl5.xml" [["d1.dat"]] [] [["y1.dat"]]).2.2.2.2.2.1
     (by decide) (by decide)⟩

/-- C4 counterexample: no download call issued by generate_jendl.py carries a
checksum — in particular all eight JENDL-5 neutron archives are fetched
without any checksum verification, refuting the claim that every downloaded
file is verified against a recorded checksum. -/
theorem c4_counterexample :
    (jendlDownloadCalls jendl5_base_url jendl5_neutron_compressed_files).map
        (fun call => call.checksum) = List.replicate 8 none
      ∧ (jendlDownloadCalls jendl5_base_url jendl5_neutron_compressed_files).head?
        = some { url := "https://wwwndc.jaea.go.jp/ftpnd/ftp/JENDL/jendl5-n.tar.gz",
                 checksum := none } :=
  ⟨by decide, by decide⟩

/-- C4 (amended): in generate_endf.py, whenever a release/particle entry
records checksums, the i-th compressed file's download call carries the i-th
checksum; the wmp entry (which records none) and every download call of
generate_jendl.py pass no checksum and are not verified. -/
theorem c4_checksum_pairing :
    (∀ (details : ReleaseParticle) (cs : List String), details.checksums = some cs →
      ∀ (i : Nat) (f : String), details.compressed_files[i]? = some f →
        (endfDownloadCalls details)[i]?
          = some ({ url := details.base_url ++ f, checksum := cs[i]? } : DownloadCall))
    ∧ (∀ (base : String) (files : List String) (call : DownloadCall),
        call ∈ jendlDownloadCalls base files → call.checksum = none)
    ∧ (∀ call ∈ endfDownloadCalls vii1_wmp, call.checksum = none) := by
  refine ⟨?_, ?_, ?_⟩
  · intro details cs hcs i f hf
    unfold endfDownloadCalls
    rw [List.getElem?_map, List.getElem?_enum, hf]
    simp [hcs, List.get?_eq_getElem?]
  · intro base files call hc
    obtain ⟨f, _, hf⟩ := List.mem_map.mp hc
    rw [← hf]
  · intro call hc
    have h : endfDownloadCalls vii1_wmp
        = [{ url := "https://github.com/mit-crpg/WMP_Library/releases/download/v1.1/WMP_Library_v1.1.tar.gz",
             checksum := none }] := by decide
    rw [h] at hc
    simp only [List.mem_singleton] at hc
    rw [hc]

/-- C4 witness: the amended theorem applied to the ENDF/B-VIII.0 neutron
entry at index 1 (the errata file, paired with the second checksum). -/
theorem c4_witness :
    viii0_neutron.checksums
        = some ["90c1b1a6653a148f17cbf3c5d1171859", "eaf71eb22258f759abc205a129d8715a"]
      ∧ viii0_neutron.compressed_files[1]? = some "erratafiles/n-005_B_010.endf"
      ∧ (endfDownloadCalls viii0_neutron)[1]?
        = some { url := "https://www.nndc.bnl.gov/endf-b8.0/erratafiles/n-005_B_010.endf",
                 checksum := some "eaf71eb22258f759abc205a129d8715a" } := by
  refine ⟨by decide, by decide, ?_⟩
  have h := c4_checksum_pairing.1 viii0_neutron
      ["90c1b1a6653a148f17cbf3c5d1171859", "eaf71eb22258f759abc205a129d8715a"]
      (by decide) 1 "erratafiles/n-005_B_010.endf" (by decide)
  rw [h]
  decide

/-- C6: in the JEFF 3.3 and JEFF 4.0 chain scripts the fission-product-yield
argument of every `Chain.from_endf` call is the evaluations loaded from the
TPID-fixed path of the NFY file, and no `get_evaluations` call reads the
unpatched NFY file directly. -/
theorem c6_nfy_from_tpid_fix (endf_path : PyPath) (chain_path : String)
    (decay_files neutron_files : List PyPath) :
    (∀ s ∈ jeff33Run endf_path chain_path decay_files neutron_files,
      nfyArgOf s = none
        ∨ nfyArgOf s
          = some (ChainArg.evalsFrom (EvalSource.tpidFixedPath (jeff33_nfy_file endf_path))))
    ∧ (∀ s ∈ jeff33Run endf_path chain_path decay_files neutron_files, ∀ src,
        s = ChainStep.getEvaluations src → src ≠ EvalSource.path (jeff33_nfy_file endf_path))
    ∧ (∀ s ∈ jeff40Run endf_path chain_path neutron_files,
      nfyArgOf s = none
        ∨ nfyArgOf s
          = some (ChainArg.evalsFrom (EvalSource.tpidFixedPath (jeff40_nfy_path endf_path))))
    ∧ (∀ s ∈ jeff40Run endf_path chain_path neutron_files, ∀ src,
        s = ChainStep.getEvaluations src → src ≠ EvalSource.path (jeff40_nfy_path endf_path))
    ∧ EvalSource.tpidFixedPath (jeff33_nfy_file endf_path)
        ≠ EvalSource.path (jeff33_nfy_file endf_path) := by
  refine ⟨?_, ?_, ?_, ?_, by simp⟩
  · intro s hs
    simp only [jeff33Run, List.mem_cons, List.not_mem_nil, or_false] at hs
    rcases hs with h | h | h | h <;> subst h <;> simp [nfyArgOf]
  · intro s hs src hsrc
    subst hsrc
    simp only [jeff33Run, List.mem_cons, List.not_mem_nil, or_false] at hs
    rcases hs with h | h | h | h <;> simp at h
    rw [h]
    simp
  · intro s hs
    simp only [jeff40Run, List.mem_cons, List.not_mem_nil, or_false] at hs
    rcases hs with h | h | h | h | h <;> subst h <;> simp [nfyArgOf]
  · intro s hs src hsrc
    subst hsrc
    simp only [jeff40Run, List.mem_cons, List.not_mem_nil, or_false] at hs
    rcases hs with h | h | h | h | h <;> simp at h
    · rw [h]
      simp
    · rw [h]
      simp only [EvalSource.path.injEq, ne_eq]
      intro heq
      have h2 := List.append_cancel_left heq
      simp at h2

/-- C6 witness: the theorem applied at a concrete JEFF 3.3 run, for its
`Chain.from_endf` step. -/
theorem c6_witness :
    (ChainStep.constructChain (ChainArg.files [])
        (ChainArg.evalsFrom (EvalSource.tpidFixedPath (jeff33_nfy_file ["workdir"])))
        (ChainArg.files []))
      ∈ jeff33Run ["workdir"] "chain_jeff33.xml" [] []
    ∧ (nfyArgOf (ChainStep.constructChain (ChainArg.files [])
          (ChainArg.evalsFrom (EvalSource.tpidFixedPath (jeff33_nfy_file ["workdir"])))
          (ChainArg.files [])) = none
        ∨ nfyArgOf (ChainStep.constructChain (ChainArg.files [])
            (ChainArg.evalsFrom (EvalSource.tpidFixedPath (jeff33_nfy_file ["workdir"])))
            (ChainArg.files []))
          = some (ChainArg.evalsFrom
              (EvalSource.tpidFixedPath (jeff33_nfy_file ["workdir"])))) :=
  ⟨by decide, (c6_nfy_from_tpid_fix ["workdir"] "chain_jeff33.xml" [] []).1 _ (by decide)⟩

/-- C7 counterexample: the `update_thermal_list` patch table has 30 entries,
not the 31 the claim states. -/
theorem c7_counterexample :
    update_thermal_list.length = 30 ∧ update_thermal_list.length ≠ 31 := by
  decide

/-- C7 (amended): in the JENDL HDF5 script's thermal stage, before any
thermal-scattering task is submitted, `update_zsymam` is applied to each of
the 30 listed liquid/solid thermal evaluation files with its listed
replacement symbol, and the 30 replacement symbols (and the 30 file names)
are pairwise distinct, so each patched file carries a unique ZSYMAM material
symbol. -/
theorem c7_zsymam_updates (neutron_dir thermal_dir destination : PyPath)
    (libver : String) (zam : String → Nat × Nat × Nat) (thermalDirFiles : List String) :
    (∀ fz ∈ update_thermal_list,
      ThermalEvent.updateZsymam (thermal_dir ++ [fz.1]) fz.2
        ∈ jendlThermalTrace neutron_dir thermal_dir destination libver zam thermalDirFiles)
    ∧ precedesAll isUpdateZsymam isSubmitThermal
        (jendlThermalTrace neutron_dir thermal_dir destination libver zam thermalDirFiles)
    ∧ (update_thermal_list.map Prod.snd).Nodup
    ∧ (update_thermal_list.map Prod.fst).Nodup := by
  refine ⟨?_, ?_, by decide, by decide⟩
  · intro fz h
    unfold jendlThermalTrace
    exact List.mem_append_left _ (List.mem_append_left _ (List.mem_append_left _
      (List.mem_map_of_mem _ h)))
  · unfold jendlThermalTrace
    rw [List.append_assoc, List.append_assoc]
    apply precedesAll_append
    · intro e he
      obtain ⟨fz, _, hfz⟩ := List.mem_map.mp he
      rw [← hfz]
      rfl
    · intro e he
      rcases List.mem_append.mp he with h | h
      · obtain ⟨pp, _, hpp⟩ := List.mem_map.mp h
        rw [← hpp]
        rfl
      · rcases List.mem_append.mp h with h2 | h2
        · obtain ⟨n, _, hn⟩ := List.mem_map.mp h2
          rw [← hn]
          rfl
        · obtain ⟨p, _, hp⟩ := List.mem_map.mp h2
          rw [← hp]
          rfl

/-- C7 witness: the amended theorem applied at the first patch-table entry in
a concrete thermal stage. -/
theorem c7_witness :
    ("tsl_CinLiquidBenzene.dat", "c(c6h6)l") ∈ update_thermal_list
    ∧ ThermalEvent.updateZsymam
          (["jendl-5-endf", "thermal", "jendl5-tsl"] ++ ["tsl_CinLiquidBenzene.dat"]) "c(c6h6)l"
        ∈ jendlThermalTrace ["jendl-5-endf", "neutron", "jendl5-n"]
            ["jendl-5-endf", "thermal", "jendl5-tsl"] ["jendl-5-hdf5"] "latest"
            (fun _ => (1, 1, 0)) [] :=
  ⟨by decide,
    (c7_zsymam_updates ["jendl-5-endf", "neutron", "jendl5-n"]
        ["jendl-5-endf", "thermal", "jendl5-tsl"] ["jendl-5-hdf5"] "latest"
        (fun _ => (1, 1, 0)) []).1 ("tsl_CinLiquidBenzene.dat", "c(c6h6)l") (by decide)⟩

theorem compressedFileWrites_errata (zipContents : String → List String)
    (tarContents : String → List TarMember) :
    compressedFileWrites zipContents tarContents "erratafiles/n-005_B_010.endf"
      = [("n-005_B_010.endf", WriteSource.plainCopy "n-005_B_010.endf")] := by
  unfold compressedFileWrites
  simp only [show pathName "erratafiles/n-005_B_010.endf" = "n-005_B_010.endf" from by decide,
    show strEndsWith "n-005_B_010.endf" ".zip" = false from by decide,
    show strEndsWith "n-005_B_010.endf" ".tar.gz" = false from by decide,
    Bool.false_eq_true, if_false]

/-- C8: errata files replace the originally extracted evaluations.  In
generate_endf.py the uncompressed ENDF/B-VIII.0 errata file
`n-005_B_010.endf` is copied last, so whatever the neutron zip extracted
under that name, the surviving content is the errata copy; in
generate_jendl.py every file matching an errata pattern is renamed to
`destination_dir / p.name` inside the main evaluation directory, and a
rename replaces any file already recorded at the target; in
generate_jendl_chain.py the rename target is likewise the main evaluation
directory (the parent of the `endf_files` glob) under the file's own name. -/
theorem c8_errata_replacement :
    (∀ (zipContents : String → List String) (tarContents : String → List TarMember),
      lookupLast (particleExtractionWrites zipContents tarContents
          viii0_neutron.compressed_files) "n-005_B_010.endf"
        = some (WriteSource.plainCopy "n-005_B_010.endf"))
    ∧ (∀ (particle_dir : PyPath) (endf_dir : String) (pats : List String)
        (matched : String → List PyPath) (pr : PyPath × PyPath),
        pr ∈ errataRenames particle_dir endf_dir pats matched →
        pr.2 = particle_dir ++ [endf_dir, pname pr.1])
    ∧ (∀ (fs : List (PyPath × WriteSource)) (src dst : PyPath) (c : WriteSource),
        lookupLast fs src = some c → lookupLast (fsRename fs src dst) dst = some c)
    ∧ (∀ (cwd : PyPath) (p : PyPath),
        jendlChainRenameTarget (cwd ++ ["jendl-5-endf"]) "jendl5-n/*.dat" p
          = cwd ++ ["jendl-5-endf", "jendl5-n", pname p]) := by
  refine ⟨?_, ?_, ?_, ?_⟩
  · intro zipContents tarContents
    have h : particleExtractionWrites zipContents tarContents viii0_neutron.compressed_files
        = compressedFileWrites zipContents tarContents "zips/ENDF-B-VIII.0_neutrons.zip"
          ++ [("n-005_B_010.endf", WriteSource.plainCopy "n-005_B_010.endf")] := by
      unfold particleExtractionWrites
      rw [show viii0_neutron.compressed_files
          = ["zips/ENDF-B-VIII.0_neutrons.zip", "erratafiles/n-005_B_010.endf"] from rfl]
      rw [List.flatMap_cons, List.flatMap_cons, List.flatMap_nil, List.append_nil,
        compressedFileWrites_errata]
    rw [h]
    exact lookupLast_concat_self _ _ _
  · intro particle_dir endf_dir pats matched pr hpr
    unfold errataRenames at hpr
    obtain ⟨pat, _, hmem⟩ := List.mem_flatMap.mp hpr
    obtain ⟨p, _, hp⟩ := List.mem_map.mp hmem
    rw [← hp]
  · intro fs src dst c h
    exact lookupLast_fsRename fs src dst c h
  · intro cwd p
    unfold jendlChainRenameTarget
    rw [show pathParts "jendl5-n/*.dat" = ["jendl5-n", "*.dat"] from by decide]
    have h2 : (cwd ++ ["jendl-5-endf"]) ++ ["jendl5-n", "*.dat"]
        = (cwd ++ ["jendl-5-endf", "jendl5-n"]) ++ ["*.dat"] := by simp
    rw [h2, List.dropLast_concat]
    simp

/-- C8 witness: the theorem applied at a concrete extraction (a zip whose
member list contains the boron evaluation) and a concrete overwriting
rename. -/
theorem c8_witness :
    lookupLast (particleExtractionWrites
        (fun _ => ["ENDF-B-VIII.0_neutrons/n-005_B_010.endf",
                   "ENDF-B-VIII.0_neutrons/n-001_H_001.endf"])
        (fun _ => []) viii0_neutron.compressed_files) "n-005_B_010.endf"
      = some (WriteSource.plainCopy "n-005_B_010.endf")
    ∧ lookupLast [(["d", "a.dat"], WriteSource.plainCopy "old-a"),
        (["u", "a.dat"], WriteSource.plainCopy "new-a")] ["u", "a.dat"]
      = some (WriteSource.plainCopy "new-a")
    ∧ lookupLast (fsRename [(["d", "a.dat"], WriteSource.plainCopy "old-a"),
          (["u", "a.dat"], WriteSource.plainCopy "new-a")] ["u", "a.dat"] ["d", "a.dat"])
        ["d", "a.dat"]
      = some (WriteSource.plainCopy "new-a") :=
  ⟨c8_errata_replacement.1
      (fun _ => ["ENDF-B-VIII.0_neutrons/n-005_B_010.endf",
                 "ENDF-B-VIII.0_neutrons/n-001_H_001.endf"]) (fun _ => []),
   by decide,
   c8_errata_replacement.2.2.1 _ ["u", "a.dat"] ["d", "a.dat"]
     (WriteSource.plainCopy "new-a") (by decide)⟩

/-- C9: the evaluation named `n-000_n_001.endf` is never submitted to the
pool (while every other evaluation file is), no submit event in the neutron
section's trace carries it, and every file the neutron registration loop
registers derives from some other evaluation — so the skipped file
contributes no HDF5 output and no registration. -/
theorem c9_skip_n000 (endf_files : List PyPath) :
    (∀ f ∈ endfNeutronSubmitted endf_files, pname f ≠ "n-000_n_001.endf")
    ∧ (∀ f ∈ endf_files, pname f ≠ "n-000_n_001.endf" → f ∈ endfNeutronSubmitted endf_files)
    ∧ (∀ (τ : Type) (destination : PyPath) (libver : String) (temperatures : τ)
        (zam : String → Nat × Nat × Nat) (dirFiles : List String) (a : NeutronArgs τ),
        PoolEvent.submit a
            ∈ endfNeutronTrace τ endf_files destination libver temperatures zam dirFiles →
        pname a.filename ≠ "n-000_n_001.endf")
    ∧ (∀ (out : PyPath → String) (zam : String → Nat × Nat × Nat) (destination : PyPath)
        (e : LibEvent),
        e ∈ registerSorted zam destination "neutron" (endfNeutronOutputs out endf_files) →
        ∃ g, g ∈ endf_files ∧ pname g ≠ "n-000_n_001.endf"
          ∧ e = LibEvent.registerFile (destination ++ ["neutron", out g])) := by
  have hsub : ∀ f ∈ endfNeutronSubmitted endf_files,
      f ∈ endf_files ∧ pname f ≠ "n-000_n_001.endf" := by
    intro f hf
    have h := List.mem_filter.mp hf
    refine ⟨h.1, ?_⟩
    have h2 := h.2
    simpa using h2
  refine ⟨fun f hf => (hsub f hf).2, ?_, ?_, ?_⟩
  · intro f hf hne
    exact List.mem_filter.mpr ⟨hf, by simpa using hne⟩
  · intro τ destination libver temperatures zam dirFiles a ha
    unfold endfNeutronTrace at ha
    rcases List.mem_append.mp ha with h | h
    · rcases List.mem_append.mp h with h2 | h2
      · obtain ⟨f, hf, hfa⟩ := List.mem_map.mp h2
        have : a.filename = f := by
          have := congrArg (fun e => match e with
            | PoolEvent.submit a => a.filename
            | _ => []) hfa
          simpa using this.symm
        rw [this]
        exact (hsub f hf).2
      · obtain ⟨n, _, hn⟩ := List.mem_map.mp h2
        exact absurd hn (by simp)
    · obtain ⟨p, _, hp⟩ := List.mem_map.mp h
      exact absurd hp (by simp)
  · intro out zam destination e he
    unfold registerSorted at he
    obtain ⟨p, hp, hpe⟩ := List.mem_map.mp he
    rw [mem_pythonSortedBy] at hp
    obtain ⟨n, hn, hnp⟩ := List.mem_map.mp hp
    have hn2 := List.mem_filter.mp hn
    unfold endfNeutronOutputs at hn2
    obtain ⟨g, hg, hgo⟩ := List.mem_map.mp hn2.1
    refine ⟨g, (hsub g hg).1, (hsub g hg).2, ?_⟩
    rw [← hpe, ← hnp, hgo]

/-- C9 witness: the theorem applied at a concrete file list containing the
skipped evaluation and one ordinary evaluation. -/
theorem c9_witness :
    (["endfb-viii.1-endf", "neutron", "n-092_U_235.endf"] : PyPath)
        ∈ [["endfb-viii.1-endf", "neutron", "n-092_U_235.endf"],
           ["endfb-viii.1-endf", "neutron", "n-000_n_001.endf"]]
      ∧ pname ["endfb-viii.1-endf", "neutron", "n-092_U_235.endf"] ≠ "n-000_n_001.endf"
      ∧ (["endfb-viii.1-endf", "neutron", "n-092_U_235.endf"] : PyPath)
        ∈ endfNeutronSubmitted
            [["endfb-viii.1-endf", "neutron", "n-092_U_235.endf"],
             ["endfb-viii.1-endf", "neutron", "n-000_n_001.endf"]] :=
  ⟨by decide, by decide,
    (c9_skip_n000 [["endfb-viii.1-endf", "neutron", "n-092_U_235.endf"],
        ["endfb-viii.1-endf", "neutron", "n-000_n_001.endf"]]).2.1
      ["endfb-viii.1-endf", "neutron", "n-092_U_235.endf"] (by decide) (by decide)⟩

theorem poolShape_props (τ : Type) (sub : List (NeutronArgs τ)) (regs : List PyPath) :
    ((sub.map PoolEvent.submit) ++ ((List.range sub.length).map PoolEvent.wait)
        ++ (regs.map PoolEvent.registerFile)).countP isWait
      = ((sub.map PoolEvent.submit) ++ ((List.range sub.length).map PoolEvent.wait)
        ++ (regs.map PoolEvent.registerFile)).countP isSubmit
    ∧ precedesAll isSubmit isWait ((sub.map PoolEvent.submit)
        ++ ((List.range sub.length).map PoolEvent.wait) ++ (regs.map PoolEvent.registerFile))
    ∧ precedesAll isWait isRegister ((sub.map PoolEvent.submit)
        ++ ((List.range sub.length).map PoolEvent.wait) ++ (regs.map PoolEvent.registerFile))
    ∧ precedesAll isSubmit isRegister ((sub.map PoolEvent.submit)
        ++ ((List.range sub.length).map PoolEvent.wait) ++ (regs.map PoolEvent.registerFile)) := by
  refine ⟨?_, ?_, ?_, ?_⟩
  · simp [List.countP_append, List.countP_map, Function.comp_def, isWait, isSubmit]
  · rw [List.append_assoc]
    apply precedesAll_append
    · intro e he
      obtain ⟨a, _, ha⟩ := List.mem_map.mp he
      rw [← ha]
      rfl
    · intro e he
      rcases List.mem_append.mp he with h | h
      · obtain ⟨n, _, hn⟩ := List.mem_map.mp h
        rw [← hn]
        rfl
      · obtain ⟨p, _, hp⟩ := List.mem_map.mp h
        rw [← hp]
        rfl
  · apply precedesAll_append
    · intro e he
      rcases List.mem_append.mp he with h | h
      · obtain ⟨a, _, ha⟩ := List.mem_map.mp h
        rw [← ha]
        rfl
      · obtain ⟨n, _, hn⟩ := List.mem_map.mp h
        rw [← hn]
        rfl
    · intro e he
      obtain ⟨p, _, hp⟩ := List.mem_map.mp he
      rw [← hp]
      rfl
  · apply precedesAll_append
    · intro e he
      rcases List.mem_append.mp he with h | h
      · obtain ⟨a, _, ha⟩ := List.mem_map.mp h
        rw [← ha]
        rfl
      · obtain ⟨n, _, hn⟩ := List.mem_map.mp h
        rw [← hn]
        rfl
    · intro e he
      obtain ⟨p, _, hp⟩ := List.mem_map.mp he
      rw [← hp]
      rfl

theorem endfNeutronTrace_shape (τ : Type) (endf_files : List PyPath) (destination : PyPath)
    (libver : String) (temperatures : τ) (zam : String → Nat × Nat × Nat)
    (dirFiles : List String) :
    endfNeutronTrace τ endf_files destination libver temperatures zam dirFiles
      = ((((endfNeutronSubmitted endf_files).map
            (fun f => (⟨f, destination ++ ["neutron"], libver, temperatures⟩ : NeutronArgs τ))).map
              PoolEvent.submit)
        ++ ((List.range ((endfNeutronSubmitted endf_files).map
              (fun f => (⟨f, destination ++ ["neutron"], libver, temperatures⟩ :
                NeutronArgs τ))).length).map PoolEvent.wait)
        ++ ((pythonSortedBy (sort_key zam)
              ((dirFiles.filter (fun n => strEndsWith n ".h5")).map
                (fun n => destination ++ ["neutron", n]))).map PoolEvent.registerFile)) := by
  unfold endfNeutronTrace
  simp [List.map_map, Function.comp_def]

theorem jendlNeutronTrace_shape (τ : Type) (glob : String → List PyPath) (destination : PyPath)
    (libver : String) (temperatures : τ) (zam : String → Nat × Nat × Nat)
    (dirFiles : List String) :
    jendlNeutronTrace τ glob destination libver temperatures zam dirFiles
      = ((((jendlNeutronSubmitted glob jendl5_neutron_patterns).map
            (fun f => (⟨f, destination ++ ["neutron"], libver, temperatures⟩ : NeutronArgs τ))).map
              PoolEvent.submit)
        ++ ((List.range ((jendlNeutronSubmitted glob jendl5_neutron_patterns).map
              (fun f => (⟨f, destination ++ ["neutron"], libver, temperatures⟩ :
                NeutronArgs τ))).length).map PoolEvent.wait)
        ++ ((pythonSortedBy (sort_key zam)
              ((dirFiles.filter (fun n => strEndsWith n ".h5")).map
                (fun n => destination ++ ["neutron", n]))).map PoolEvent.registerFile)) := by
  unfold jendlNeutronTrace
  simp [List.map_map, Function.comp_def]

/-- C5: in both HDF5 scripts' neutron sections the trace has one wait per
submitted task, every submission precedes every wait, every wait precedes
every registration (so the parent waits for all tasks before registering
anything), and each submitted task's argument tuple is a pure function of
its own evaluation file — tasks receive only their own arguments and no task
reads another task's input. -/
theorem c5_pool_fanout (τ : Type) (endf_files : List PyPath) (glob : String → List PyPath)
    (destination jdestination : PyPath) (libver jlibver : String)
    (temperatures jtemperatures : τ) (zam jzam : String → Nat × Nat × Nat)
    (dirFiles jdirFiles : List String) :
    ((endfNeutronTrace τ endf_files destination libver temperatures zam dirFiles).countP isWait
      = (endfNeutronTrace τ endf_files destination libver temperatures zam dirFiles).countP
          isSubmit)
    ∧ precedesAll isSubmit isWait
        (endfNeutronTrace τ endf_files destination libver temperatures zam dirFiles)
    ∧ precedesAll isWait isRegister
        (endfNeutronTrace τ endf_files destination libver temperatures zam dirFiles)
    ∧ precedesAll isSubmit isRegister
        (endfNeutronTrace τ endf_files destination libver temperatures zam dirFiles)
    ∧ (∀ a : NeutronArgs τ,
        PoolEvent.submit a
            ∈ endfNeutronTrace τ endf_files destination libver temperatures zam dirFiles →
        ∃ f, f ∈ endf_files
          ∧ a = ⟨f, destination ++ ["neutron"], libver, temperatures⟩)
    ∧ ((jendlNeutronTrace τ glob jdestination jlibver jtemperatures jzam jdirFiles).countP isWait
      = (jendlNeutronTrace τ glob jdestination jlibver jtemperatures jzam jdirFiles).countP
          isSubmit)
    ∧ precedesAll isSubmit isWait
        (jendlNeutronTrace τ glob jdestination jlibver jtemperatures jzam jdirFiles)
    ∧ precedesAll isWait isRegister
        (jendlNeutronTrace τ glob jdestination jlibver jtemperatures jzam jdirFiles)
    ∧ precedesAll isSubmit isRegister
        (jendlNeutronTrace τ glob jdestination jlibver jtemperatures jzam jdirFiles)
    ∧ (∀ a : NeutronArgs τ,
        PoolEvent.submit a
            ∈ jendlNeutronTrace τ glob jdestination jlibver jtemperatures jzam jdirFiles →
        ∃ f, f ∈ jendlNeutronSubmitted glob jendl5_neutron_patterns
          ∧ a = ⟨f, jdestination ++ ["neutron"], jlibver, jtemperatures⟩) := by
  have he := endfNeutronTrace_shape τ endf_files destination libver temperatures zam dirFiles
  have hj := jendlNeutronTrace_shape τ glob jdestination jlibver jtemperatures jzam jdirFiles
  have pe := poolShape_props τ ((endfNeutronSubmitted endf_files).map
    (fun f => (⟨f, destination ++ ["neutron"], libver, temperatures⟩ : NeutronArgs τ)))
    (pythonSortedBy (sort_key zam) ((dirFiles.filter (fun n => strEndsWith n ".h5")).map
      (fun n => destination ++ ["neutron", n])))
  have pj := poolShape_props τ ((jendlNeutronSubmitted glob jendl5_neutron_patterns).map
    (fun f => (⟨f, jdestination ++ ["neutron"], jlibver, jtemperatures⟩ : NeutronArgs τ)))
    (pythonSortedBy (sort_key jzam) ((jdirFiles.filter (fun n => strEndsWith n ".h5")).map
      (fun n => jdestination ++ ["neutron", n])))
  rw [he, hj]
  refine ⟨pe.1, pe.2.1, pe.2.2.1, pe.2.2.2, ?_, pj.1, pj.2.1, pj.2.2.1, pj.2.2.2, ?_⟩
  · intro a ha
    rcases List.mem_append.mp ha with h | h
    · rcases List.mem_append.mp h with h2 | h2
      · obtain ⟨b, hb, hba⟩ := List.mem_map.mp h2
        obtain ⟨f, hf, hfb⟩ := List.mem_map.mp hb
        have hab : a = b := by
          have := congrArg (fun e => match e with
            | PoolEvent.submit x => x
            | _ => (⟨[], [], "", temperatures⟩ : NeutronArgs τ)) hba
          simpa using this.symm
        exact ⟨f, (List.mem_filter.mp hf).1, by rw [hab, ← hfb]⟩
      · obtain ⟨n, _, hn⟩ := List.mem_map.mp h2
        exact absurd hn (by simp)
    · obtain ⟨p, _, hp⟩ := List.mem_map.mp h
      exact absurd hp (by simp)
  · intro a ha
    rcases List.mem_append.mp ha with h | h
    · rcases List.mem_append.mp h with h2 | h2
      · obtain ⟨b, hb, hba⟩ := List.mem_map.mp h2
        obtain ⟨f, hf, hfb⟩ := List.mem_map.mp hb
        have hab : a = b := by
          have := congrArg (fun e => match e with
            | PoolEvent.submit x => x
            | _ => (⟨[], [], "", jtemperatures⟩ : NeutronArgs τ)) hba
          simpa using this.symm
        exact ⟨f, hf, by rw [hab, ← hfb]⟩
      · obtain ⟨n, _, hn⟩ := List.mem_map.mp h2
        exact absurd hn (by simp)
    · obtain ⟨p, _, hp⟩ := List.mem_map.mp h
      exact absurd hp (by simp)

/-- C5 witness: the theorem applied at a concrete one-file run, for its
single submission event. -/
theorem c5_witness :
    PoolEvent.submit (⟨[["n-001_H_001.endf"]].headD [], ["hdf5", "neutron"], "earliest", 0⟩ :
        NeutronArgs Nat)
        ∈ endfNeutronTrace Nat [["n-001_H_001.endf"]] ["hdf5"] "earliest" 0
            (fun _ => (1, 1, 0)) []
      ∧ ∃ f, f ∈ [["n-001_H_001.endf"]]
          ∧ (⟨[["n-001_H_001.endf"]].headD [], ["hdf5", "neutron"], "earliest", 0⟩ :
              NeutronArgs Nat) = ⟨f, ["hdf5"] ++ ["neutron"], "earliest", 0⟩ :=
  ⟨by decide,
    (c5_pool_fanout Nat [["n-001_H_001.endf"]] (fun _ => []) ["hdf5"] ["hdf5"]
        "earliest" "earliest" 0 0 (fun _ => (1, 1, 0)) (fun _ => (1, 1, 0)) [] []).2.2.2.2.1
      _ (by decide)⟩

/-- C3: in both HDF5 scripts the registration/export phase registers every
HDF5 file present in each requested particle type's output directory (and,
for photon data, every converted file; for wmp, every found file), exports
the index as `cross_sections.xml` in the destination directory as the final
library operation, and within a particle type registers files in the
key-sorted order, in which `c_`-prefixed thermal-scattering files sort
strictly after nuclide (neutron) data whenever the nuclide's atomic number
is below 1000. -/
theorem c3_registration_and_export (particles : List String) (destination : PyPath)
    (zam : String → Nat × Nat × Nat)
    (neutronDirFiles thermalDirFiles photonNames : List String) (wmpFiles : List PyPath) :
    ((endfLibraryPhase particles destination zam neutronDirFiles thermalDirFiles photonNames
        wmpFiles).getLast? = some (LibEvent.exportXml (destination ++ ["cross_sections.xml"])))
    ∧ ((jendlLibraryPhase particles destination zam neutronDirFiles thermalDirFiles
        photonNames).getLast? = some (LibEvent.exportXml (destination ++ ["cross_sections.xml"])))
    ∧ ("neutron" ∈ particles → ∀ n ∈ neutronDirFiles, strEndsWith n ".h5" = true →
        LibEvent.registerFile (destination ++ ["neutron", n])
          ∈ endfLibraryPhase particles destination zam neutronDirFiles thermalDirFiles
              photonNames wmpFiles)
    ∧ ("thermal" ∈ particles → ∀ n ∈ thermalDirFiles, strEndsWith n ".h5" = true →
        LibEvent.registerFile (destination ++ ["thermal", n])
          ∈ endfLibraryPhase particles destination zam neutronDirFiles thermalDirFiles
              photonNames wmpFiles)
    ∧ ("photon" ∈ particles → ∀ n ∈ photonNames,
        LibEvent.registerFile (destination ++ ["photon", n ++ ".h5"])
          ∈ endfLibraryPhase particles destination zam neutronDirFiles thermalDirFiles
              photonNames wmpFiles)
    ∧ ("wmp" ∈ particles → ∀ p ∈ wmpFiles,
        LibEvent.registerFile p
          ∈ endfLibraryPhase particles destination zam neutronDirFiles thermalDirFiles
              photonNames wmpFiles)
    ∧ ("neutron" ∈ particles → ∀ n ∈ neutronDirFiles, strEndsWith n ".h5" = true →
        LibEvent.registerFile (destination ++ ["neutron", n])
          ∈ jendlLibraryPhase particles destination zam neutronDirFiles thermalDirFiles
              photonNames)
    ∧ ("thermal" ∈ particles → ∀ n ∈ thermalDirFiles, strEndsWith n ".h5" = true →
        LibEvent.registerFile (destination ++ ["thermal", n])
          ∈ jendlLibraryPhase particles destination zam neutronDirFiles thermalDirFiles
              photonNames)
    ∧ ("photon" ∈ particles → ∀ n ∈ photonNames,
        LibEvent.registerFile (destination ++ ["photon", n ++ ".h5"])
          ∈ jendlLibraryPhase particles destination zam neutronDirFiles thermalDirFiles
              photonNames)
    ∧ (∀ l : List PyPath,
        List.Sorted (fun x y => sortKeyLe (sort_key zam x) (sort_key zam y) = true)
          (pythonSortedBy (sort_key zam) l))
    ∧ (∀ p q : PyPath, strStartsWith (pname q) "c_" = true →
        strStartsWith (pname p) "c_" = false → (zam (stemOfName (pname p))).1 < 1000 →
        sortKeyLe (sort_key zam p) (sort_key zam q) = true
          ∧ sortKeyLe (sort_key zam q) (sort_key zam p) = false)
    ∧ (∀ l : List PyPath,
        (∀ p ∈ l, strStartsWith (pname p) "c_" = false →
          (zam (stemOfName (pname p))).1 < 1000) →
        List.Pairwise (fun x y => strStartsWith (pname x) "c_" = true →
          strStartsWith (pname y) "c_" = true) (pythonSortedBy (sort_key zam) l)) := by
  refine ⟨?_, ?_, ?_, ?_, ?_, ?_, ?_, ?_, ?_, ?_, ?_, ?_⟩
  · exact List.getLast?_concat _
  · exact List.getLast?_concat _
  · intro hp n hn h5
    unfold endfLibraryPhase
    apply List.mem_append_left
    apply List.mem_append_left
    apply List.mem_append_left
    apply List.mem_append_left
    rw [if_pos hp]
    exact mem_registerSorted zam destination "neutron" n neutronDirFiles hn h5
  · intro hp n hn h5
    unfold endfLibraryPhase
    apply List.mem_append_left
    apply List.mem_append_left
    apply List.mem_append_left
    apply List.mem_append_right
    rw [if_pos hp]
    exact mem_registerSorted zam destination "thermal" n thermalDirFiles hn h5
  · intro hp n hn
    unfold endfLibraryPhase
    apply List.mem_append_left
    apply List.mem_append_left
    apply List.mem_append_right
    rw [if_pos hp]
    exact List.mem_map_of_mem _ hn
  · intro hp p hn
    unfold endfLibraryPhase
    apply List.mem_append_left
    apply List.mem_append_right
    rw [if_pos hp]
    exact List.mem_map_of_mem _ ((mem_pythonSortedPaths wmpFiles p).mpr hn)
  · intro hp n hn h5
    unfold jendlLibraryPhase
    apply List.mem_append_left
    apply List.mem_append_left
    apply List.mem_append_left
    rw [if_pos hp]
    exact mem_registerSorted zam destination "neutron" n neutronDirFiles hn h5
  · intro hp n hn h5
    unfold jendlLibraryPhase
    apply List.mem_append_left
    apply List.mem_append_left
    apply List.mem_append_right
    rw [if_pos hp]
    exact mem_registerSorted zam destination "thermal" n thermalDirFiles hn h5
  · intro hp n hn
    unfold jendlLibraryPhase
    apply List.mem_append_left
    apply List.mem_append_right
    rw [if_pos hp]
    exact List.mem_map_of_mem _ hn
  · intro l
    exact sorted_pythonSortedBy (sort_key zam) l
  · intro p q hq hp hz
    constructor
    · simp only [sort_key, hq, hp, Bool.false_eq_true, if_false, if_true, sortKeyLe,
        decide_eq_true_eq]
      omega
    · simp only [sort_key, hq, hp, Bool.false_eq_true, if_false, if_true, sortKeyLe,
        decide_eq_false_iff_not]
      omega
  · intro l hl
    have hs := sorted_pythonSortedBy (sort_key zam) l
    refine List.Pairwise.imp_of_mem ?_ hs
    intro a b ha hb hr hca
    by_contra hcb
    have hcbf : strStartsWith (pname b) "c_" = false := by
      rcases Bool.eq_false_or_eq_true (strStartsWith (pname b) "c_") with h | h
      · exact absurd h hcb
      · exact h
    have hbl : b ∈ l := (mem_pythonSortedBy (sort_key zam) l b).mp hb
    have hzb := hl b hbl hcbf
    have hfalse : sortKeyLe (sort_key zam a) (sort_key zam b) = false := by
      simp only [sort_key, hca, hcbf, Bool.false_eq_true, if_false, if_true, sortKeyLe,
        decide_eq_false_iff_not]
      omega
    rw [hfalse] at hr
    exact Bool.false_ne_true hr

/-- C3 witness: the theorem applied at a concrete two-particle run, for the
registration of the single neutron HDF5 file. -/
theorem c3_witness :
    ("neutron" ∈ (["neutron", "thermal"] : List String))
      ∧ ("U235.h5" ∈ (["U235.h5"] : List String))
      ∧ strEndsWith "U235.h5" ".h5" = true
      ∧ LibEvent.registerFile (["endfb-hdf5"] ++ ["neutron", "U235.h5"])
          ∈ endfLibraryPhase ["neutron", "thermal"] ["endfb-hdf5"] (fun _ => (92, 235, 0))
              ["U235.h5"] ["c_H_in_H2O.h5"] [] [] :=
  ⟨by decide, by decide, by decide,
    (c3_registration_and_export ["neutron", "thermal"] ["endfb-hdf5"] (fun _ => (92, 235, 0))
        ["U235.h5"] ["c_H_in_H2O.h5"] [] []).2.2.1 (by decide) "U235.h5" (by decide)
      (by decide)⟩
